import Mathlib

/-!
# ProxyServer: the HTTPS (MITM) session handler

A shallow embedding of `src/handlers/HttpsHandler.go`.

The handler is almost entirely calls into collaborators (the Go standard
library, the operating system, the network and the sibling function
`genProxyCert`).  Each collaborator is a field of `Env`: a deterministic
transition of an external world state `σ` that receives the arguments of the
call and yields the values Go returns.  Every call is appended to a trace, so
that ordering properties can be stated.  The handler's own control flow (early
returns, ignored errors, field assignments, nil dereferences) is translated
statement by statement.
-/

namespace ProxyServer

/-- A Go `[]byte` / `string` value. -/
abbrev Bytes := String

/-- A non-nil Go `error`.  `notExist` is what `os.IsNotExist` answers for it. -/
structure Err where
  msg : String
  notExist : Bool
deriving DecidableEq, Repr

/-- Go's `os.IsNotExist` applied to a possibly nil error. -/
def os.IsNotExist : Option Err → Bool
  | none => false
  | some e => e.notExist

/-- The fields of `url.URL` that matter here (`Scheme` is the only one read). -/
structure url.URL where
  Scheme : String
  Host : String
  Path : String
deriving DecidableEq, Repr

/-- A loaded `tls.Certificate`, as an abstract handle. -/
structure tls.Certificate where
  id : Nat
deriving DecidableEq, Repr

/-- The two fields of `tls.Config` the handler sets. -/
structure tls.Config where
  Certificates : List tls.Certificate
  ServerName : String
deriving DecidableEq, Repr

/-- The pointee of a `*http.Request`: the parsed head of a request. -/
structure http.Request where
  Method : String
  RequestURI : String
  Proto : String
  Host : String
  Header : List (String × String)
deriving DecidableEq, Repr

/-- The pointee of a `*http.Response`: the parsed head of a response. -/
structure http.Response where
  Status : String
  Proto : String
  Header : List (String × String)
deriving DecidableEq, Repr

/-- A `http.ResponseWriter` value; `hijacker` tells whether its dynamic type
implements `http.Hijacker`. -/
structure http.ResponseWriter where
  id : Nat
  hijacker : Bool
deriving DecidableEq, Repr

/-- Connections: the raw `net.Conn` handed out by `Hijack`, the `*tls.Conn`
built by `tls.Server(raw, config)` and the `*tls.Conn` returned by `tls.Dial`. -/
inductive Conn where
  | raw (id : Nat)
  | tlsServer (rawId : Nat) (config : Option tls.Config)
  | tlsClient (id : Nat)
deriving DecidableEq, Repr

/-- One call to a collaborator, with its arguments and whether it reported
success. -/
inductive Event where
  | getwd (ok : Bool)
  | stat (path : String) (notExist : Bool)
  | genProxyCert (dir script identity certsDir : String) (ok : Bool)
  | loadX509KeyPair (certFile keyFile : String) (ok : Bool)
  | hijack (rw : http.ResponseWriter) (ok : Bool)
  | write (c : Conn) (b : Bytes) (ok : Bool)
  | close (c : Conn)
  | handshake (c : Conn) (ok : Bool)
  | dial (network addr : String) (config : Option tls.Config) (ok : Bool)
  | readRequest (c : Conn) (ok : Bool)
  | dumpRequest (req : http.Request) (body : Bool) (ok : Bool)
  | readResponse (c : Conn) (req : http.Request) (ok : Bool)
  | dumpResponse (resp : http.Response) (body : Bool) (ok : Bool)
deriving DecidableEq, Repr

/-- The collaborators.  `σ` is the state of everything outside the handler
(files, sockets, peers); each call may read and change it.

* `urlParse` is `url.Parse` (pure);
* `genProxyCert` is the sibling function of package `handlers` that runs the
  issuance script; its body is not part of this file of the repository;
* `dumpRequest` / `dumpResponse` return Go's pair `([]byte, error)` as a pair,
  because the handler uses the bytes without looking at the error. -/
structure Env (σ : Type) where
  urlParse : String → Except Err url.URL
  getwd : σ → Except Err String × σ
  stat : σ → String → Option Err × σ
  genProxyCert : σ → String → String → String → String → Option Err × σ
  loadX509KeyPair : σ → String → String → Except Err tls.Certificate × σ
  hijack : σ → http.ResponseWriter → Except Err Nat × σ
  write : σ → Conn → Bytes → Option Err × σ
  close : σ → Conn → σ
  handshake : σ → Conn → Option Err × σ
  dial : σ → String → String → Option tls.Config → Except Err Nat × σ
  readRequest : σ → Conn → Except Err http.Request × σ
  dumpRequest : σ → http.Request → Bool → (Bytes × Option Err) × σ
  readResponse : σ → Conn → http.Request → Except Err http.Response × σ
  dumpResponse : σ → http.Response → Bool → (Bytes × Option Err) × σ

/-- External state together with the calls made so far. -/
structure World (σ : Type) where
  ext : σ
  trace : List Event

/-- Record a call and move to the external state it left behind. -/
def World.log {σ : Type} (w : World σ) (s : σ) (e : Event) : World σ :=
  ⟨s, w.trace ++ [e]⟩

/-- How a Go function ends: it returns, or it panics. -/
inductive Res (α : Type) where
  | ret (a : α)
  | panic
deriving DecidableEq, Repr

/-- The Go struct `HttpsHandler`; pointer and interface fields are `Option`,
`none` being nil.  `connectRequest` and `respWriter` are the (non-nil) values
the constructor received. -/
structure HttpsHandler where
  connectRequest : http.Request
  clientRequest : Option http.Request
  respWriter : http.ResponseWriter
  config : Option tls.Config
  serverTcpConnection : Option Conn
  clientTcpConnection : Option Conn
  parsedUrl : Option url.URL
  proxyResp : Option http.Response
deriving DecidableEq, Repr

/-- The literal written on the hijacked connection. -/
def connectionEstablished : Bytes := "HTTP/1.1 200 Connection established\r\n\r\n"

/-- Method `setupHttpsConfig`: the receiver after the call and the returned
error (nil is `none`).  Reading `hh.parsedUrl.Scheme` through a nil pointer
panics. -/
def setupHttpsConfig {σ : Type} (env : Env σ) (hh : HttpsHandler) (w : World σ) :
    Res (HttpsHandler × Option Err) × World σ :=
  match env.getwd w.ext with
  | (.error e, s1) => (.ret (hh, some e), w.log s1 (.getwd false))
  | (.ok pwd, s1) =>
    let w1 := w.log s1 (.getwd true)
    let genScriptAndRootCaDir := pwd ++ "/certGen"
    let certsDir := pwd ++ "/certs/"
    match hh.parsedUrl with
    | none => (.panic, w1)
    | some parsedUrl =>
      let certFilename := certsDir ++ parsedUrl.Scheme ++ ".crt"
      match env.stat w1.ext certFilename with
      | (err, s2) =>
        let w2 := w1.log s2 (.stat certFilename (os.IsNotExist err))
        let load (w3 : World σ) : Res (HttpsHandler × Option Err) × World σ :=
          let keyFile := genScriptAndRootCaDir ++ "/cert.key"
          match env.loadX509KeyPair w3.ext certFilename keyFile with
          | (.error e, s4) =>
            (.ret (hh, some e), w3.log s4 (.loadX509KeyPair certFilename keyFile false))
          | (.ok cert, s4) =>
            let config : tls.Config := ⟨[cert], parsedUrl.Scheme⟩
            (.ret ({ hh with config := some config }, none),
              w3.log s4 (.loadX509KeyPair certFilename keyFile true))
        if os.IsNotExist err then
          match env.genProxyCert w2.ext genScriptAndRootCaDir "/gen_cert.sh"
              parsedUrl.Scheme certsDir with
          | (some e, s3) =>
            (.ret (hh, some e),
              w2.log s3 (.genProxyCert genScriptAndRootCaDir "/gen_cert.sh"
                parsedUrl.Scheme certsDir false))
          | (none, s3) =>
            load (w2.log s3 (.genProxyCert genScriptAndRootCaDir "/gen_cert.sh"
                parsedUrl.Scheme certsDir true))
        else
          load w2

/-- Method `setupHttpsClientConnection`.  The unchecked type assertion
`hh.respWriter.(http.Hijacker)` panics when the writer is no `http.Hijacker`. -/
def setupHttpsClientConnection {σ : Type} (env : Env σ) (hh : HttpsHandler) (w : World σ) :
    Res (HttpsHandler × Option Err) × World σ :=
  if hh.respWriter.hijacker = false then (.panic, w) else
  match env.hijack w.ext hh.respWriter with
  | (.error e, s1) => (.ret (hh, some e), w.log s1 (.hijack hh.respWriter false))
  | (.ok rawId, s1) =>
    let w1 := w.log s1 (.hijack hh.respWriter true)
    let raw := Conn.raw rawId
    match env.write w1.ext raw connectionEstablished with
    | (some e, s2) =>
      let w2 := w1.log s2 (.write raw connectionEstablished false)
      let w3 := w2.log (env.close w2.ext raw) (.close raw)
      (.ret (hh, some e), w3)
    | (none, s2) =>
      let w2 := w1.log s2 (.write raw connectionEstablished true)
      let clientConn := Conn.tlsServer rawId hh.config
      match env.handshake w2.ext clientConn with
      | (some e, s3) =>
        let w3 := w2.log s3 (.handshake clientConn false)
        let w4 := w3.log (env.close w3.ext clientConn) (.close clientConn)
        let w5 := w4.log (env.close w4.ext raw) (.close raw)
        (.ret (hh, some e), w5)
      | (none, s3) =>
        let w3 := w2.log s3 (.handshake clientConn true)
        (.ret ({ hh with clientTcpConnection := some clientConn }, none), w3)

/-- Method `setupHttpsServerConnection`. -/
def setupHttpsServerConnection {σ : Type} (env : Env σ) (hh : HttpsHandler) (w : World σ) :
    Res (HttpsHandler × Option Err) × World σ :=
  match env.dial w.ext "tcp" hh.connectRequest.Host hh.config with
  | (.error e, s1) =>
    (.ret (hh, some e), w.log s1 (.dial "tcp" hh.connectRequest.Host hh.config false))
  | (.ok id, s1) =>
    (.ret ({ hh with serverTcpConnection := some (Conn.tlsClient id) }, none),
      w.log s1 (.dial "tcp" hh.connectRequest.Host hh.config true))

/-- Function `NewHttpsHandler`: the returned pair `(*HttpsHandler, error)`. -/
def NewHttpsHandler {σ : Type} (env : Env σ) (respWriter : http.ResponseWriter)
    (connectRequest : http.Request) (w : World σ) :
    Res (Option HttpsHandler × Option Err) × World σ :=
  let hh0 : HttpsHandler :=
    { connectRequest := connectRequest, clientRequest := none, respWriter := respWriter,
      config := none, serverTcpConnection := none, clientTcpConnection := none,
      parsedUrl := none, proxyResp := none }
  match env.urlParse connectRequest.RequestURI with
  | .error e => (.ret (none, some e), w)
  | .ok u =>
    let hh1 := { hh0 with parsedUrl := some u }
    match setupHttpsConfig env hh1 w with
    | (.panic, w1) => (.panic, w1)
    | (.ret (_, some e), w1) => (.ret (none, some e), w1)
    | (.ret (hh2, none), w1) =>
      match setupHttpsClientConnection env hh2 w1 with
      | (.panic, w2) => (.panic, w2)
      | (.ret (_, some e), w2) => (.ret (none, some e), w2)
      | (.ret (hh3, none), w2) =>
        match setupHttpsServerConnection env hh3 w2 with
        | (.panic, w3) => (.panic, w3)
        | (.ret (_, some e), w3) => (.ret (none, some e), w3)
        | (.ret (hh4, none), w3) => (.ret (some hh4, none), w3)

/-- Method `getHttpsRequest`.  Reading through a nil `net.Conn` panics. -/
def getHttpsRequest {σ : Type} (env : Env σ) (hh : HttpsHandler) (w : World σ) :
    Res (HttpsHandler × Option Err) × World σ :=
  match hh.clientTcpConnection with
  | none => (.panic, w)
  | some c =>
    match env.readRequest w.ext c with
    | (.error e, s1) => (.ret (hh, some e), w.log s1 (.readRequest c false))
    | (.ok request, s1) =>
      (.ret ({ hh with clientRequest := some request }, none), w.log s1 (.readRequest c true))

/-- Method `doHttpsProxyRequest`.  The error of `httputil.DumpRequest` is
assigned to `err` and overwritten by the result of `Write` before it is read. -/
def doHttpsProxyRequest {σ : Type} (env : Env σ) (hh : HttpsHandler) (w : World σ) :
    Res (HttpsHandler × Option Err) × World σ :=
  match hh.clientRequest with
  | none => (.panic, w)
  | some clientRequest =>
    match env.dumpRequest w.ext clientRequest true with
    | ((rawReq, dumpErr), s1) =>
      let w1 := w.log s1 (.dumpRequest clientRequest true dumpErr.isNone)
      match hh.serverTcpConnection with
      | none => (.panic, w1)
      | some server =>
        match env.write w1.ext server rawReq with
        | (some e, s2) => (.ret (hh, some e), w1.log s2 (.write server rawReq false))
        | (none, s2) =>
          let w2 := w1.log s2 (.write server rawReq true)
          match env.readResponse w2.ext server clientRequest with
          | (.error e, s3) =>
            (.ret (hh, some e), w2.log s3 (.readResponse server clientRequest false))
          | (.ok response, s3) =>
            (.ret ({ hh with proxyResp := some response }, none),
              w2.log s3 (.readResponse server clientRequest true))

/-- Method `sendHttpsProxyResponse`.  The error of `httputil.DumpResponse` is
overwritten by the result of `Write` before it is read. -/
def sendHttpsProxyResponse {σ : Type} (env : Env σ) (hh : HttpsHandler) (w : World σ) :
    Res (HttpsHandler × Option Err) × World σ :=
  match hh.proxyResp with
  | none => (.panic, w)
  | some proxyResp =>
    match env.dumpResponse w.ext proxyResp true with
    | ((rawResp, dumpErr), s1) =>
      let w1 := w.log s1 (.dumpResponse proxyResp true dumpErr.isNone)
      match hh.clientTcpConnection with
      | none => (.panic, w1)
      | some client =>
        match env.write w1.ext client rawResp with
        | (some e, s2) => (.ret (hh, some e), w1.log s2 (.write client rawResp false))
        | (none, s2) => (.ret (hh, none), w1.log s2 (.write client rawResp true))

/-- Method `ProxyRequest`. -/
def ProxyRequest {σ : Type} (env : Env σ) (hh : HttpsHandler) (w : World σ) :
    Res (HttpsHandler × Option Err) × World σ :=
  match getHttpsRequest env hh w with
  | (.panic, w1) => (.panic, w1)
  | (.ret (hh1, some e), w1) => (.ret (hh1, some e), w1)
  | (.ret (hh1, none), w1) =>
    match doHttpsProxyRequest env hh1 w1 with
    | (.panic, w2) => (.panic, w2)
    | (.ret (hh2, some e), w2) => (.ret (hh2, some e), w2)
    | (.ret (hh2, none), w2) =>
      match sendHttpsProxyResponse env hh2 w2 with
      | (.panic, w3) => (.panic, w3)
      | (.ret (hh3, some e), w3) => (.ret (hh3, some e), w3)
      | (.ret (hh3, none), w3) => (.ret (hh3, none), w3)

/-- Method `Defer`.  Both `Close` results are discarded; calling `Close` on a
nil connection panics. -/
def Defer {σ : Type} (env : Env σ) (hh : HttpsHandler) (w : World σ) : Res Unit × World σ :=
  match hh.clientTcpConnection with
  | none => (.panic, w)
  | some client =>
    let w1 := w.log (env.close w.ext client) (.close client)
    match hh.serverTcpConnection with
    | none => (.panic, w1)
    | some server =>
      let w2 := w1.log (env.close w1.ext server) (.close server)
      (.ret (), w2)

/-! ## Observations on traces -/

/-- Is the call an invocation of the issuance collaborator? -/
def Event.isGenProxyCert : Event → Bool
  | .genProxyCert _ _ _ _ _ => true
  | _ => false

/-- Number of invocations of the issuance collaborator in a trace. -/
def issuances (t : List Event) : Nat := t.countP Event.isGenProxyCert

/-- Is the call a `Close` of some connection? -/
def Event.isClose : Event → Bool
  | .close _ => true
  | _ => false

/-- Is the call an operation on a connection of the client side (hijack,
write, handshake or close)?  None of them may happen before the TLS
configuration exists. -/
def Event.isClientSide : Event → Bool
  | .hijack _ _ => true
  | .write _ _ _ => true
  | .handshake _ _ => true
  | .close _ => true
  | _ => false

/-- Is the call an operation performed on a tunnel by the relay: a request
or response read from it, or a write to it? -/
def Event.isTunnelOp : Event → Bool
  | .readRequest _ _ => true
  | .readResponse _ _ _ => true
  | .write _ _ _ => true
  | _ => false

/-- The tunnel operations of a trace, in order. -/
def tunnelOps (t : List Event) : List Event := t.filter Event.isTunnelOp

/-! ## A scripted world, for running the handler on concrete inputs -/

/-- State of the scripted world: the files that exist, the bytes each peer
sends, and which collaborator calls are scripted to fail. -/
structure Sim where
  files : List String
  clientIn : Bytes
  originIn : Bytes
  genFails : Bool
  dialFails : Bool
  clientBodyTruncated : Bool
  originBodyTruncated : Bool
deriving DecidableEq, Repr

/-- The request a client sends in the scripted world. -/
def simRequestBytes : Bytes := "GET / HTTP/1.1\r\nUser-Agent: x\r\nHost: example.com\r\n\r\n"

/-- What `http.ReadRequest` parses from `simRequestBytes`: the `Host` line is
moved into the field `Host`. -/
def simRequest : http.Request :=
  { Method := "GET", RequestURI := "/", Proto := "HTTP/1.1", Host := "example.com",
    Header := [("User-Agent", "x")] }

/-- What `httputil.DumpRequest` prints for `simRequest`: the request line, the
`Host` line, then the remaining header lines. -/
def simRequestDump : Bytes := "GET / HTTP/1.1\r\nHost: example.com\r\nUser-Agent: x\r\n\r\n"

/-- The response the origin sends in the scripted world. -/
def simResponseBytes : Bytes := "HTTP/1.1 200 OK\r\nContent-Length: 2\r\n\r\nOK"

/-- What `http.ReadResponse` parses from `simResponseBytes`. -/
def simResponse : http.Response :=
  { Status := "200 OK", Proto := "HTTP/1.1", Header := [("Content-Length", "2")] }

/-- The scripted collaborators. -/
def simEnv : Env Sim where
  urlParse uri :=
    if uri = "example.com:443" then .ok ⟨"example.com", "", ""⟩
    else if uri = "example.org:8443" then .ok ⟨"example.org", "", ""⟩
    else .error ⟨"parse error", false⟩
  getwd s := (.ok "/srv", s)
  stat s p := (if s.files.contains p then none else some ⟨"no such file", true⟩, s)
  genProxyCert s _ _ identity certsDir :=
    if s.genFails then (some ⟨"exit status 1", false⟩, s)
    else (none, { s with files := (certsDir ++ identity ++ ".crt") :: s.files })
  loadX509KeyPair s certFile _ :=
    (if s.files.contains certFile then .ok ⟨0⟩ else .error ⟨"no such file", true⟩, s)
  hijack s rw := (.ok rw.id, s)
  write s _ _ := (none, s)
  close s _ := s
  handshake s _ := (none, s)
  dial s _ _ _ := (if s.dialFails then .error ⟨"connection refused", false⟩ else .ok 1, s)
  readRequest s _ :=
    (if s.clientIn = simRequestBytes then .ok simRequest
     else .error ⟨"malformed HTTP request", false⟩, s)
  dumpRequest s req _ :=
    (if s.clientBodyTruncated then ("", some ⟨"unexpected EOF", false⟩)
     else if req = simRequest then (simRequestDump, none)
     else ("", some ⟨"unsupported", false⟩), s)
  readResponse s _ _ :=
    (if s.originIn = simResponseBytes then .ok simResponse
     else .error ⟨"malformed HTTP response", false⟩, s)
  dumpResponse s resp _ :=
    (if s.originBodyTruncated then ("", some ⟨"unexpected EOF", false⟩)
     else if resp = simResponse then (simResponseBytes, none)
     else ("", some ⟨"unsupported", false⟩), s)

/-- A scripted world with no cached certificate and well-behaved peers. -/
def simWorld : World Sim :=
  { ext := { files := [], clientIn := simRequestBytes, originIn := simResponseBytes,
             genFails := false, dialFails := false, clientBodyTruncated := false,
             originBodyTruncated := false },
    trace := [] }

/-- The CONNECT request of the scripted world. -/
def simConnect : http.Request :=
  { Method := "CONNECT", RequestURI := "example.com:443", Proto := "HTTP/1.1",
    Host := "example.com:443", Header := [] }

/-- A response writer that supports hijacking. -/
def simWriter : http.ResponseWriter := { id := 7, hijacker := true }

/-- The handler as `NewHttpsHandler` holds it right after a successful
`url.Parse`, for the scripted CONNECT request. -/
def simParsed : HttpsHandler :=
  { connectRequest := simConnect, clientRequest := none, respWriter := simWriter,
    config := none, serverTcpConnection := none, clientTcpConnection := none,
    parsedUrl := some ⟨"example.com", "", ""⟩, proxyResp := none }

/-- The error a Go function returned, `none` if it panicked instead. -/
def returnedError {α : Type} : Res (α × Option Err) → Option (Option Err)
  | .ret (_, e) => some e
  | .panic => none

/-- The TLS configuration `setupHttpsConfig` builds in the scripted world. -/
def simConfig : tls.Config := ⟨[⟨0⟩], "example.com"⟩

/-- The handler `NewHttpsHandler` returns in the scripted world. -/
def simHandler : HttpsHandler :=
  { simParsed with
    config := some simConfig,
    clientTcpConnection := some (Conn.tlsServer 7 (some simConfig)),
    serverTcpConnection := some (Conn.tlsClient 1) }

/-- A response writer whose dynamic type does not implement `http.Hijacker`. -/
def simPlainWriter : http.ResponseWriter := { id := 8, hijacker := false }

/-- A scripted world in which the issuance script fails. -/
def simWorldGenFails : World Sim :=
  { simWorld with ext := { simWorld.ext with genFails := true } }

/-- A scripted world in which the origin refuses the connection. -/
def simWorldDialFails : World Sim :=
  { simWorld with ext := { simWorld.ext with dialFails := true } }

/-- A scripted world in which the origin's response body breaks off, so that
`httputil.DumpResponse` fails while reading it. -/
def simWorldOriginTruncated : World Sim :=
  { simWorld with ext := { simWorld.ext with originBodyTruncated := true } }

/-- A scripted world in which the client's request body breaks off, so that
`httputil.DumpRequest` fails while reading it. -/
def simWorldClientTruncated : World Sim :=
  { simWorld with ext := { simWorld.ext with clientBodyTruncated := true } }

/-! ## String facts used for the certificate paths -/

theorem str_mid_cancel (a c x y : String) (h : a ++ x ++ c = a ++ y ++ c) : x = y := by
  have h1 := congrArg String.data h
  simp only [String.data_append] at h1
  exact String.ext (List.append_cancel_left (List.append_cancel_right h1))

theorem key_path (wd : String) :
    wd ++ "/certGen" ++ "/cert.key" = wd ++ "/certGen/cert.key" := by
  rw [String.append_assoc]
  rfl

/-! ## Certificate configuration -/

/-- C10: with working directory `wd` and parsed URL `u`, `setupHttpsConfig`
stats `wd/certs/<u.Scheme>.crt`, issues (if at all) for identity `u.Scheme`
into `wd/certs/` from `wd/certGen`, loads that certificate with the key
`wd/certGen/cert.key`, and on success stores a configuration whose ServerName
is `u.Scheme`; the certificate path of two URLs is the same exactly when their
schemes are, whatever their hosts. -/
theorem setupHttpsConfig_paths {σ : Type} (env : Env σ) (hh : HttpsHandler) (w : World σ)
    (wd : String) (s1 : σ) (u : url.URL)
    (hwd : env.getwd w.ext = (.ok wd, s1)) (hu : hh.parsedUrl = some u) :
    (∃ ne rest, (setupHttpsConfig env hh w).2.trace
        = w.trace ++ Event.getwd true
            :: Event.stat (wd ++ "/certs/" ++ u.Scheme ++ ".crt") ne :: rest
      ∧ ∀ ev ∈ rest,
          (∃ ok, ev = Event.genProxyCert (wd ++ "/certGen") "/gen_cert.sh" u.Scheme
                        (wd ++ "/certs/") ok)
        ∨ (∃ ok, ev = Event.loadX509KeyPair (wd ++ "/certs/" ++ u.Scheme ++ ".crt")
                        (wd ++ "/certGen/cert.key") ok))
    ∧ (∀ hh1, (setupHttpsConfig env hh w).1 = .ret (hh1, none) →
        ∃ cert, hh1.config = some ⟨[cert], u.Scheme⟩)
    ∧ (∀ v : url.URL,
        wd ++ "/certs/" ++ v.Scheme ++ ".crt" = wd ++ "/certs/" ++ u.Scheme ++ ".crt"
          ↔ v.Scheme = u.Scheme) := by
  rcases hst : env.stat s1 (wd ++ "/certs/" ++ u.Scheme ++ ".crt") with ⟨err, s2⟩
  refine ⟨?_, ?_, ?_⟩
  · unfold setupHttpsConfig
    simp only [hwd, hu, World.log, key_path, hst]
    split
    · split
      · exact ⟨_, _, by simp only [List.append_assoc, List.cons_append, List.nil_append]; rfl,
          by simp⟩
      · split
        · exact ⟨_, _, by simp only [List.append_assoc, List.cons_append, List.nil_append]; rfl,
            by simp⟩
        · exact ⟨_, _, by simp only [List.append_assoc, List.cons_append, List.nil_append]; rfl,
            by simp⟩
    · split
      · exact ⟨_, _, by simp only [List.append_assoc, List.cons_append, List.nil_append]; rfl,
          by simp⟩
      · exact ⟨_, _, by simp only [List.append_assoc, List.cons_append, List.nil_append]; rfl,
          by simp⟩
  · intro hh1
    unfold setupHttpsConfig
    simp only [hwd, hu, World.log, hst]
    split
    · split
      · simp
      · split
        · simp
        · intro h
          simp only [Res.ret.injEq, Prod.mk.injEq, and_true] at h
          exact ⟨_, by rw [← h]⟩
    · split
      · simp
      · intro h
        simp only [Res.ret.injEq, Prod.mk.injEq, and_true] at h
        exact ⟨_, by rw [← h]⟩
  · intro v
    exact ⟨fun h => str_mid_cancel _ _ _ _ h, fun h => by rw [h]⟩

/-- Witness for C10 in the scripted world. -/
theorem setupHttpsConfig_paths_witness :
    simEnv.getwd simWorld.ext = (.ok "/srv", simWorld.ext)
    ∧ simParsed.parsedUrl = some ⟨"example.com", "", ""⟩
    ∧ (setupHttpsConfig simEnv simParsed simWorld).2.trace
        = [Event.getwd true, Event.stat "/srv/certs/example.com.crt" true,
           Event.genProxyCert "/srv/certGen" "/gen_cert.sh" "example.com" "/srv/certs/" true,
           Event.loadX509KeyPair "/srv/certs/example.com.crt" "/srv/certGen/cert.key" true]
    ∧ (∃ ne rest, (setupHttpsConfig simEnv simParsed simWorld).2.trace
        = simWorld.trace ++ Event.getwd true
            :: Event.stat ("/srv" ++ "/certs/" ++ "example.com" ++ ".crt") ne :: rest
      ∧ ∀ ev ∈ rest,
          (∃ ok, ev = Event.genProxyCert ("/srv" ++ "/certGen") "/gen_cert.sh" "example.com"
                        ("/srv" ++ "/certs/") ok)
        ∨ (∃ ok, ev = Event.loadX509KeyPair ("/srv" ++ "/certs/" ++ "example.com" ++ ".crt")
                        ("/srv" ++ "/certGen/cert.key") ok))
    ∧ (∀ hh1, (setupHttpsConfig simEnv simParsed simWorld).1 = .ret (hh1, none) →
        ∃ cert, hh1.config = some ⟨[cert], "example.com"⟩)
    ∧ (∀ v : url.URL,
        "/srv" ++ "/certs/" ++ v.Scheme ++ ".crt" = "/srv" ++ "/certs/" ++ "example.com" ++ ".crt"
          ↔ v.Scheme = "example.com") :=
  ⟨rfl, rfl, by decide,
    setupHttpsConfig_paths simEnv simParsed simWorld "/srv" simWorld.ext
      ⟨"example.com", "", ""⟩ rfl rfl⟩

/-- Issuances counted over one run of `setupHttpsConfig` whose `Getwd`
succeeds: one exactly when the stat error satisfies `os.IsNotExist`. -/
theorem setupHttpsConfig_issuances {σ : Type} (env : Env σ) (hh : HttpsHandler)
    (w : World σ) (wd : String) (s1 : σ) (u : url.URL) (err : Option Err) (s2 : σ)
    (hwd : env.getwd w.ext = (.ok wd, s1)) (hu : hh.parsedUrl = some u)
    (hst : env.stat s1 (wd ++ "/certs/" ++ u.Scheme ++ ".crt") = (err, s2)) :
    issuances (setupHttpsConfig env hh w).2.trace
      = issuances w.trace + (if os.IsNotExist err then 1 else 0) := by
  unfold setupHttpsConfig
  simp only [hwd, hu, World.log, hst]
  split
  · split
    · simp [issuances, List.countP_append, List.countP_cons, Event.isGenProxyCert]
    · split <;> simp [issuances, List.countP_append, List.countP_cons, Event.isGenProxyCert]
  · split <;> simp [issuances, List.countP_append, List.countP_cons, Event.isGenProxyCert]

/-- When `Getwd` fails, or the parsed URL is nil, nothing is issued. -/
theorem setupHttpsConfig_issuances_early {σ : Type} (env : Env σ) (hh : HttpsHandler)
    (w : World σ) (h : (∃ e s1, env.getwd w.ext = (.error e, s1)) ∨ hh.parsedUrl = none) :
    issuances (setupHttpsConfig env hh w).2.trace = issuances w.trace := by
  unfold setupHttpsConfig
  rcases h with ⟨e, s1, h⟩ | h
  · simp [h, World.log, issuances, List.countP_append, List.countP_cons, Event.isGenProxyCert]
  · rcases hg : env.getwd w.ext with ⟨r, s1⟩
    cases r <;> simp [h, World.log, issuances, List.countP_append, List.countP_cons, Event.isGenProxyCert]

/-- The external state `setupHttpsConfig` leaves behind when it returns nil
after finding the certificate absent: the states after `Getwd`, `Stat`,
`genProxyCert` (which succeeded) and `LoadX509KeyPair`, in that order. -/
theorem setupHttpsConfig_ok_state {σ : Type} (env : Env σ) (hh hh1 : HttpsHandler)
    (w : World σ) (wd : String) (u : url.URL)
    (hwd : (env.getwd w.ext).1 = .ok wd) (hu : hh.parsedUrl = some u)
    (hne : os.IsNotExist (env.stat (env.getwd w.ext).2
              (wd ++ "/certs/" ++ u.Scheme ++ ".crt")).1 = true)
    (hok : (setupHttpsConfig env hh w).1 = .ret (hh1, none)) :
    ∃ s3, (env.genProxyCert (env.stat (env.getwd w.ext).2
              (wd ++ "/certs/" ++ u.Scheme ++ ".crt")).2
            (wd ++ "/certGen") "/gen_cert.sh" u.Scheme (wd ++ "/certs/")) = (none, s3)
      ∧ (setupHttpsConfig env hh w).2.ext
          = (env.loadX509KeyPair s3 (wd ++ "/certs/" ++ u.Scheme ++ ".crt")
              (wd ++ "/certGen" ++ "/cert.key")).2 := by
  rcases hg : env.getwd w.ext with ⟨r, s1⟩
  rw [hg] at hwd hne
  simp only at hwd hne
  subst hwd
  rcases hst : env.stat s1 (wd ++ "/certs/" ++ u.Scheme ++ ".crt") with ⟨err, s2⟩
  rw [hst] at hne
  simp only at hne
  revert hok
  unfold setupHttpsConfig
  simp only [hg, hu, World.log, hst, hne, if_true]
  split
  · simp
  · rename_i s3 hgen
    intro hok
    refine ⟨s3, hgen, ?_⟩
    rcases hl : env.loadX509KeyPair s3 (wd ++ "/certs/" ++ u.Scheme ++ ".crt")
      (wd ++ "/certGen" ++ "/cert.key") with ⟨r, s4⟩
    cases r <;> rfl

/-- C5: `setupHttpsConfig` invokes the issuance collaborator once when the stat
of the certificate path reports that the file does not exist, and not at all
otherwise (stat succeeds or fails differently, `Getwd` fails, no parsed URL).
Hence, when the collaborator creates `certsDir ++ identity ++ ".crt"` on
success, files persist and stat reports existing files as existing, a first
successful run for an absent certificate issues once and a second run for the
same identity issues nothing. -/
theorem setupHttpsConfig_issues_iff_absent {σ : Type} (env : Env σ) :
    (∀ (hh : HttpsHandler) (w : World σ) (wd : String) (s1 : σ) (u : url.URL)
        (err : Option Err) (s2 : σ),
        env.getwd w.ext = (.ok wd, s1) → hh.parsedUrl = some u →
        env.stat s1 (wd ++ "/certs/" ++ u.Scheme ++ ".crt") = (err, s2) →
        issuances (setupHttpsConfig env hh w).2.trace
          = issuances w.trace + (if os.IsNotExist err then 1 else 0))
    ∧ (∀ (hh : HttpsHandler) (w : World σ),
        ((∃ e s1, env.getwd w.ext = (.error e, s1)) ∨ hh.parsedUrl = none) →
        issuances (setupHttpsConfig env hh w).2.trace = issuances w.trace)
    ∧ (∀ (present : σ → String → Bool) (wd : String) (hh hh1 hh2 : HttpsHandler)
        (w : World σ) (u u2 : url.URL),
        (∀ s, (env.getwd s).1 = .ok wd) →
        (∀ s p, present s p = true → os.IsNotExist (env.stat s p).1 = false) →
        (∀ s d sc id cd, (env.genProxyCert s d sc id cd).1 = none →
          present (env.genProxyCert s d sc id cd).2 (cd ++ id ++ ".crt") = true) →
        (∀ s p, present s p = true → present (env.getwd s).2 p = true) →
        (∀ s p a b, present s p = true → present (env.loadX509KeyPair s a b).2 p = true) →
        hh.parsedUrl = some u → hh2.parsedUrl = some u2 → u2.Scheme = u.Scheme →
        os.IsNotExist (env.stat (env.getwd w.ext).2
          (wd ++ "/certs/" ++ u.Scheme ++ ".crt")).1 = true →
        (setupHttpsConfig env hh w).1 = .ret (hh1, none) →
        issuances (setupHttpsConfig env hh w).2.trace = issuances w.trace + 1
        ∧ issuances (setupHttpsConfig env hh2 (setupHttpsConfig env hh w).2).2.trace
            = issuances (setupHttpsConfig env hh w).2.trace) := by
  refine ⟨?_, ?_, ?_⟩
  · intro hh w wd s1 u err s2 hwd hu hst
    exact setupHttpsConfig_issuances env hh w wd s1 u err s2 hwd hu hst
  · intro hh w h
    exact setupHttpsConfig_issuances_early env hh w h
  · intro present wd hh hh1 hh2 w u u2 hwd hstat hgen hpg hpl hu hu2 hsch hne hok
    constructor
    · have h := setupHttpsConfig_issuances env hh w wd (env.getwd w.ext).2 u
        (env.stat (env.getwd w.ext).2 (wd ++ "/certs/" ++ u.Scheme ++ ".crt")).1
        (env.stat (env.getwd w.ext).2 (wd ++ "/certs/" ++ u.Scheme ++ ".crt")).2
        (by rw [← hwd w.ext]) hu rfl
      rw [h, hne]
      rfl
    · obtain ⟨s3, hg3, hext⟩ := setupHttpsConfig_ok_state env hh hh1 w wd u (hwd _) hu hne hok
      have hp3 : present s3 (wd ++ "/certs/" ++ u.Scheme ++ ".crt") = true := by
        have := hgen (env.stat (env.getwd w.ext).2 (wd ++ "/certs/" ++ u.Scheme ++ ".crt")).2
          (wd ++ "/certGen") "/gen_cert.sh" u.Scheme (wd ++ "/certs/") (by rw [hg3])
        rw [hg3] at this
        exact this
      have hp5 : present (setupHttpsConfig env hh w).2.ext
          (wd ++ "/certs/" ++ u.Scheme ++ ".crt") = true := by
        rw [hext]
        exact hpl _ _ _ _ hp3
      have hp6 := hpg _ _ hp5
      have hex := hstat _ _ hp6
      have h := setupHttpsConfig_issuances env hh2 (setupHttpsConfig env hh w).2 wd
        (env.getwd (setupHttpsConfig env hh w).2.ext).2 u2
        (env.stat (env.getwd (setupHttpsConfig env hh w).2.ext).2
          (wd ++ "/certs/" ++ u2.Scheme ++ ".crt")).1
        (env.stat (env.getwd (setupHttpsConfig env hh w).2.ext).2
          (wd ++ "/certs/" ++ u2.Scheme ++ ".crt")).2
        (by rw [← hwd (setupHttpsConfig env hh w).2.ext]) hu2 rfl
      rw [h, hsch, hex]
      rfl

/-- Witness for C5: in the scripted world the first run issues once and a
second run, for a request to the same identity, issues nothing. -/
theorem setupHttpsConfig_issues_iff_absent_witness :
    issuances (setupHttpsConfig simEnv simParsed simWorld).2.trace
      = issuances simWorld.trace
        + (if os.IsNotExist (some ⟨"no such file", true⟩) then 1 else 0)
    ∧ issuances (setupHttpsConfig simEnv simParsed simWorld).2.trace = 1
    ∧ issuances (setupHttpsConfig simEnv simParsed
        (setupHttpsConfig simEnv simParsed simWorld).2).2.trace = 1 := by
  have h := (setupHttpsConfig_issues_iff_absent simEnv).2.2
    (fun s p => s.files.contains p) "/srv" simParsed
    { simParsed with config := some ⟨[⟨0⟩], "example.com"⟩ } simParsed simWorld
    ⟨"example.com", "", ""⟩ ⟨"example.com", "", ""⟩
    (fun _ => rfl)
    (by
      intro s p hp
      have hp2 : p ∈ s.files := by simpa using hp
      simp [simEnv, hp2, os.IsNotExist])
    (by
      intro s d sc id cd
      simp only [simEnv]
      split <;> simp)
    (fun _ _ hp => hp)
    (fun _ _ _ _ hp => hp)
    rfl rfl rfl (by decide) (by decide)
  exact ⟨(setupHttpsConfig_issues_iff_absent simEnv).1 simParsed simWorld "/srv" simWorld.ext
    ⟨"example.com", "", ""⟩ (some ⟨"no such file", true⟩) simWorld.ext rfl rfl rfl,
    h.1, h.2.trans h.1⟩

/-! ## Construction of the handler -/

/-- C4: when the certificate file is reported absent and `genProxyCert`
returns an error, `NewHttpsHandler` returns a nil handler with that error
after exactly three calls (`Getwd`, `Stat`, `genProxyCert`): no key pair is
loaded, so no TLS configuration is built, `setupHttpsConfig` leaves its
receiver as it was, and nothing is done on the client connection. -/
theorem NewHttpsHandler_issuance_failure {σ : Type} (env : Env σ)
    (respWriter : http.ResponseWriter) (connectRequest : http.Request) (w : World σ)
    (u : url.URL) (wd : String) (s1 s2 s3 : σ) (err : Option Err) (e : Err)
    (hparse : env.urlParse connectRequest.RequestURI = .ok u)
    (hwd : env.getwd w.ext = (.ok wd, s1))
    (hst : env.stat s1 (wd ++ "/certs/" ++ u.Scheme ++ ".crt") = (err, s2))
    (hne : os.IsNotExist err = true)
    (hgen : env.genProxyCert s2 (wd ++ "/certGen") "/gen_cert.sh" u.Scheme (wd ++ "/certs/")
              = (some e, s3)) :
    NewHttpsHandler env respWriter connectRequest w
      = (.ret (none, some e),
          ⟨s3, w.trace ++ [Event.getwd true,
                Event.stat (wd ++ "/certs/" ++ u.Scheme ++ ".crt") true,
                Event.genProxyCert (wd ++ "/certGen") "/gen_cert.sh" u.Scheme
                  (wd ++ "/certs/") false]⟩)
    ∧ (∀ hh : HttpsHandler, hh.parsedUrl = some u →
        (setupHttpsConfig env hh w).1 = .ret (hh, some e))
    ∧ (∀ ev ∈ (NewHttpsHandler env respWriter connectRequest w).2.trace,
        ev ∈ w.trace ∨ (ev.isClientSide = false ∧ ∀ c k b, ev ≠ Event.loadX509KeyPair c k b)) := by
  have hcfg : ∀ hh : HttpsHandler, hh.parsedUrl = some u →
      setupHttpsConfig env hh w = (.ret (hh, some e),
          ⟨s3, w.trace ++ [Event.getwd true,
                Event.stat (wd ++ "/certs/" ++ u.Scheme ++ ".crt") true,
                Event.genProxyCert (wd ++ "/certGen") "/gen_cert.sh" u.Scheme
                  (wd ++ "/certs/") false]⟩) := by
    intro hh hu
    unfold setupHttpsConfig
    simp [hwd, hu, World.log, hst, hne, hgen]
  have hnew : NewHttpsHandler env respWriter connectRequest w
      = (.ret (none, some e),
          ⟨s3, w.trace ++ [Event.getwd true,
                Event.stat (wd ++ "/certs/" ++ u.Scheme ++ ".crt") true,
                Event.genProxyCert (wd ++ "/certGen") "/gen_cert.sh" u.Scheme
                  (wd ++ "/certs/") false]⟩) := by
    unfold NewHttpsHandler
    simp only [hparse]
    rw [hcfg _ rfl]
  refine ⟨hnew, ?_, ?_⟩
  · intro hh hu
    rw [hcfg hh hu]
  · rw [hnew]
    intro ev hev
    simp only [List.mem_append, List.mem_cons, List.mem_singleton, List.not_mem_nil,
      or_false] at hev
    rcases hev with h | h | h | h
    · exact Or.inl h
    · subst h; exact Or.inr ⟨rfl, by intro c k b; simp⟩
    · subst h; exact Or.inr ⟨rfl, by intro c k b; simp⟩
    · subst h; exact Or.inr ⟨rfl, by intro c k b; simp⟩

/-- Witness for C4 in the scripted world whose issuance script fails. -/
theorem NewHttpsHandler_issuance_failure_witness :
    simEnv.urlParse simConnect.RequestURI = .ok ⟨"example.com", "", ""⟩
    ∧ os.IsNotExist (simEnv.stat simWorldGenFails.ext "/srv/certs/example.com.crt").1 = true
    ∧ NewHttpsHandler simEnv simWriter simConnect simWorldGenFails
      = (.ret (none, some ⟨"exit status 1", false⟩),
          ⟨simWorldGenFails.ext,
            simWorldGenFails.trace ++ [Event.getwd true,
              Event.stat ("/srv" ++ "/certs/" ++ "example.com" ++ ".crt") true,
              Event.genProxyCert ("/srv" ++ "/certGen") "/gen_cert.sh" "example.com"
                ("/srv" ++ "/certs/") false]⟩)
    ∧ (∀ hh : HttpsHandler, hh.parsedUrl = some ⟨"example.com", "", ""⟩ →
        (setupHttpsConfig simEnv hh simWorldGenFails).1
          = .ret (hh, some ⟨"exit status 1", false⟩))
    ∧ (∀ ev ∈ (NewHttpsHandler simEnv simWriter simConnect simWorldGenFails).2.trace,
        ev ∈ simWorldGenFails.trace
        ∨ (ev.isClientSide = false ∧ ∀ c k b, ev ≠ Event.loadX509KeyPair c k b)) :=
  ⟨rfl, rfl,
    NewHttpsHandler_issuance_failure simEnv simWriter simConnect simWorldGenFails
      ⟨"example.com", "", ""⟩ "/srv" simWorldGenFails.ext simWorldGenFails.ext
      simWorldGenFails.ext (some ⟨"no such file", true⟩) ⟨"exit status 1", false⟩
      rfl rfl rfl rfl rfl⟩

/-- C6: when the hijack succeeds, the calls of `setupHttpsClientConnection`
are the hijack, then one write of the acknowledgement line on the raw
connection, then the rest; the rest holds no further write, it holds no
handshake when the write returned an error, and it starts with the
server-role handshake when the write returned nil. -/
theorem setupHttpsClientConnection_ack {σ : Type} (env : Env σ) (hh : HttpsHandler)
    (w : World σ) (rawId : Nat) (s1 : σ)
    (hj : hh.respWriter.hijacker = true)
    (hhij : env.hijack w.ext hh.respWriter = (.ok rawId, s1)) :
    ∃ rest, (setupHttpsClientConnection env hh w).2.trace
        = w.trace ++ Event.hijack hh.respWriter true
            :: Event.write (Conn.raw rawId) "HTTP/1.1 200 Connection established\r\n\r\n"
                (env.write s1 (Conn.raw rawId)
                  "HTTP/1.1 200 Connection established\r\n\r\n").1.isNone
            :: rest
      ∧ (∀ ev ∈ rest, ∀ c b k, ev ≠ Event.write c b k)
      ∧ ((env.write s1 (Conn.raw rawId) "HTTP/1.1 200 Connection established\r\n\r\n").1 ≠ none →
          ∀ ev ∈ rest, ∀ c k, ev ≠ Event.handshake c k)
      ∧ ((env.write s1 (Conn.raw rawId) "HTTP/1.1 200 Connection established\r\n\r\n").1 = none →
          ∃ k tail, rest = Event.handshake (Conn.tlsServer rawId hh.config) k :: tail) := by
  rcases h2 : env.write s1 (Conn.raw rawId) "HTTP/1.1 200 Connection established\r\n\r\n"
    with ⟨r2, s2⟩
  cases r2 with
  | some e =>
    refine ⟨[Event.close (Conn.raw rawId)], ?_, by simp, by simp, by simp⟩
    simp [setupHttpsClientConnection, hj, hhij, h2, World.log, connectionEstablished]
  | none =>
    rcases h3 : env.handshake s2 (Conn.tlsServer rawId hh.config) with ⟨r3, s3⟩
    cases r3 with
    | some e =>
      refine ⟨[Event.handshake (Conn.tlsServer rawId hh.config) false,
        Event.close (Conn.tlsServer rawId hh.config), Event.close (Conn.raw rawId)],
        ?_, by simp, by simp, by simp⟩
      simp [setupHttpsClientConnection, hj, hhij, h2, h3, World.log, connectionEstablished]
    | none =>
      refine ⟨[Event.handshake (Conn.tlsServer rawId hh.config) true],
        ?_, by simp, by simp, by simp⟩
      simp [setupHttpsClientConnection, hj, hhij, h2, h3, World.log, connectionEstablished]

/-- Witness for C6 in the scripted world: hijack, acknowledgement, handshake. -/
theorem setupHttpsClientConnection_ack_witness :
    simParsed.respWriter.hijacker = true
    ∧ simEnv.hijack simWorld.ext simParsed.respWriter = (.ok 7, simWorld.ext)
    ∧ (setupHttpsClientConnection simEnv simParsed simWorld).2.trace
        = [Event.hijack simWriter true,
           Event.write (Conn.raw 7) "HTTP/1.1 200 Connection established\r\n\r\n" true,
           Event.handshake (Conn.tlsServer 7 none) true]
    ∧ ∃ rest, (setupHttpsClientConnection simEnv simParsed simWorld).2.trace
        = simWorld.trace ++ Event.hijack simParsed.respWriter true
            :: Event.write (Conn.raw 7) "HTTP/1.1 200 Connection established\r\n\r\n"
                (simEnv.write simWorld.ext (Conn.raw 7)
                  "HTTP/1.1 200 Connection established\r\n\r\n").1.isNone
            :: rest
      ∧ (∀ ev ∈ rest, ∀ c b k, ev ≠ Event.write c b k)
      ∧ ((simEnv.write simWorld.ext (Conn.raw 7)
            "HTTP/1.1 200 Connection established\r\n\r\n").1 ≠ none →
          ∀ ev ∈ rest, ∀ c k, ev ≠ Event.handshake c k)
      ∧ ((simEnv.write simWorld.ext (Conn.raw 7)
            "HTTP/1.1 200 Connection established\r\n\r\n").1 = none →
          ∃ k tail, rest = Event.handshake (Conn.tlsServer 7 simParsed.config) k :: tail) :=
  ⟨rfl, rfl, by decide,
    setupHttpsClientConnection_ack simEnv simParsed simWorld 7 simWorld.ext rfl rfl⟩

/-- C7 (the code at the failing input): with a response writer that is no
`http.Hijacker`, `setupHttpsClientConnection` panics before any call on the
connection, and `NewHttpsHandler` panics with it instead of returning an
error. -/
theorem NewHttpsHandler_plain_writer_panics :
    setupHttpsClientConnection simEnv { simParsed with respWriter := simPlainWriter } simWorld
      = (.panic, simWorld)
    ∧ (NewHttpsHandler simEnv simPlainWriter simConnect simWorld).1 = .panic
    ∧ returnedError (NewHttpsHandler simEnv simPlainWriter simConnect simWorld).1 = none := by
  refine ⟨rfl, ?_, ?_⟩ <;> decide

/-- C1 (the code at the failing input): when only the dial to the origin
fails, `NewHttpsHandler` returns a nil handler and the dial error; the client
handshake has succeeded and no connection has been closed. -/
theorem NewHttpsHandler_dial_failure_leaks_client :
    (NewHttpsHandler simEnv simWriter simConnect simWorldDialFails).1
      = .ret (none, some ⟨"connection refused", false⟩)
    ∧ (NewHttpsHandler simEnv simWriter simConnect simWorldDialFails).2.trace
      = [Event.getwd true,
         Event.stat "/srv/certs/example.com.crt" true,
         Event.genProxyCert "/srv/certGen" "/gen_cert.sh" "example.com" "/srv/certs/" true,
         Event.loadX509KeyPair "/srv/certs/example.com.crt" "/srv/certGen/cert.key" true,
         Event.hijack simWriter true,
         Event.write (Conn.raw 7) "HTTP/1.1 200 Connection established\r\n\r\n" true,
         Event.handshake (Conn.tlsServer 7 (some ⟨[⟨0⟩], "example.com"⟩)) true,
         Event.dial "tcp" "example.com:443" (some ⟨[⟨0⟩], "example.com"⟩) false]
    ∧ (NewHttpsHandler simEnv simWriter simConnect simWorldDialFails).2.trace.any Event.isClose
      = false := by
  refine ⟨?_, ?_, ?_⟩ <;> decide

/-! ## The relay: one equation per way `ProxyRequest` can end -/

theorem ProxyRequest_read_fails {σ : Type} (env : Env σ) (hh : HttpsHandler) (w : World σ)
    (c : Conn) (e : Err) (s1 : σ)
    (hc : hh.clientTcpConnection = some c)
    (h1 : env.readRequest w.ext c = (.error e, s1)) :
    ProxyRequest env hh w
      = (.ret (hh, some e), ⟨s1, w.trace ++ [Event.readRequest c false]⟩) := by
  simp [ProxyRequest, getHttpsRequest, hc, h1, World.log]

theorem ProxyRequest_forward_fails {σ : Type} (env : Env σ) (hh : HttpsHandler) (w : World σ)
    (c s : Conn) (req : http.Request) (b1 : Bytes) (e1 : Option Err) (e : Err) (s1 s2 s3 : σ)
    (hc : hh.clientTcpConnection = some c) (hs : hh.serverTcpConnection = some s)
    (h1 : env.readRequest w.ext c = (.ok req, s1))
    (h2 : env.dumpRequest s1 req true = ((b1, e1), s2))
    (h3 : env.write s2 s b1 = (some e, s3)) :
    ProxyRequest env hh w
      = (.ret ({ hh with clientRequest := some req }, some e),
          ⟨s3, w.trace ++ [Event.readRequest c true, Event.dumpRequest req true e1.isNone,
            Event.write s b1 false]⟩) := by
  simp [ProxyRequest, getHttpsRequest, doHttpsProxyRequest, hc, hs, h1, h2, h3, World.log]

theorem ProxyRequest_response_fails {σ : Type} (env : Env σ) (hh : HttpsHandler)
    (w : World σ) (c s : Conn) (req : http.Request) (b1 : Bytes) (e1 : Option Err) (e : Err)
    (s1 s2 s3 s4 : σ)
    (hc : hh.clientTcpConnection = some c) (hs : hh.serverTcpConnection = some s)
    (h1 : env.readRequest w.ext c = (.ok req, s1))
    (h2 : env.dumpRequest s1 req true = ((b1, e1), s2))
    (h3 : env.write s2 s b1 = (none, s3))
    (h4 : env.readResponse s3 s req = (.error e, s4)) :
    ProxyRequest env hh w
      = (.ret ({ hh with clientRequest := some req }, some e),
          ⟨s4, w.trace ++ [Event.readRequest c true, Event.dumpRequest req true e1.isNone,
            Event.write s b1 true, Event.readResponse s req false]⟩) := by
  simp [ProxyRequest, getHttpsRequest, doHttpsProxyRequest, hc, hs, h1, h2, h3, h4, World.log]

theorem ProxyRequest_reply_fails {σ : Type} (env : Env σ) (hh : HttpsHandler) (w : World σ)
    (c s : Conn) (req : http.Request) (resp : http.Response) (b1 b2 : Bytes)
    (e1 e2 : Option Err) (e : Err) (s1 s2 s3 s4 s5 s6 : σ)
    (hc : hh.clientTcpConnection = some c) (hs : hh.serverTcpConnection = some s)
    (h1 : env.readRequest w.ext c = (.ok req, s1))
    (h2 : env.dumpRequest s1 req true = ((b1, e1), s2))
    (h3 : env.write s2 s b1 = (none, s3))
    (h4 : env.readResponse s3 s req = (.ok resp, s4))
    (h5 : env.dumpResponse s4 resp true = ((b2, e2), s5))
    (h6 : env.write s5 c b2 = (some e, s6)) :
    ProxyRequest env hh w
      = (.ret ({ hh with clientRequest := some req, proxyResp := some resp }, some e),
          ⟨s6, w.trace ++ [Event.readRequest c true, Event.dumpRequest req true e1.isNone,
            Event.write s b1 true, Event.readResponse s req true,
            Event.dumpResponse resp true e2.isNone, Event.write c b2 false]⟩) := by
  simp [ProxyRequest, getHttpsRequest, doHttpsProxyRequest, sendHttpsProxyResponse, hc, hs,
    h1, h2, h3, h4, h5, h6, World.log]

theorem ProxyRequest_succeeds {σ : Type} (env : Env σ) (hh : HttpsHandler) (w : World σ)
    (c s : Conn) (req : http.Request) (resp : http.Response) (b1 b2 : Bytes)
    (e1 e2 : Option Err) (s1 s2 s3 s4 s5 s6 : σ)
    (hc : hh.clientTcpConnection = some c) (hs : hh.serverTcpConnection = some s)
    (h1 : env.readRequest w.ext c = (.ok req, s1))
    (h2 : env.dumpRequest s1 req true = ((b1, e1), s2))
    (h3 : env.write s2 s b1 = (none, s3))
    (h4 : env.readResponse s3 s req = (.ok resp, s4))
    (h5 : env.dumpResponse s4 resp true = ((b2, e2), s5))
    (h6 : env.write s5 c b2 = (none, s6)) :
    ProxyRequest env hh w
      = (.ret ({ hh with clientRequest := some req, proxyResp := some resp }, none),
          ⟨s6, w.trace ++ [Event.readRequest c true, Event.dumpRequest req true e1.isNone,
            Event.write s b1 true, Event.readResponse s req true,
            Event.dumpResponse resp true e2.isNone, Event.write c b2 true]⟩) := by
  simp [ProxyRequest, getHttpsRequest, doHttpsProxyRequest, sendHttpsProxyResponse, hc, hs,
    h1, h2, h3, h4, h5, h6, World.log]

theorem ProxyRequest_nil_established {σ : Type} (env : Env σ) (hh : HttpsHandler)
    (w : World σ) (hok : returnedError (ProxyRequest env hh w).1 = some none) :
    ∃ c s, hh.clientTcpConnection = some c ∧ hh.serverTcpConnection = some s := by
  cases hc : hh.clientTcpConnection with
  | none =>
    simp [ProxyRequest, getHttpsRequest, hc, returnedError] at hok
  | some c =>
    cases hs : hh.serverTcpConnection with
    | some s => exact ⟨c, s, rfl, rfl⟩
    | none =>
      rcases h1 : env.readRequest w.ext c with ⟨r1, s1⟩
      cases r1 with
      | error e =>
        rw [ProxyRequest_read_fails env hh w c e s1 hc h1] at hok
        simp [returnedError] at hok
      | ok req =>
        rcases h2 : env.dumpRequest s1 req true with ⟨⟨b1, e1⟩, s2⟩
        simp [ProxyRequest, getHttpsRequest, doHttpsProxyRequest, hc, hs, h1, h2, World.log,
          returnedError] at hok

theorem tunnelOps_append (t u : List Event) : tunnelOps (t ++ u) = tunnelOps t ++ tunnelOps u := by
  simp [tunnelOps]

/-- The tunnel operations of `ProxyRequest` on a handler with both tunnels. -/
theorem ProxyRequest_ops_established {σ : Type} (env : Env σ) (hh : HttpsHandler)
    (w : World σ) (c s : Conn)
    (hc : hh.clientTcpConnection = some c) (hs : hh.serverTcpConnection = some s) :
    ∃ r ops, (ProxyRequest env hh w).1 = .ret r
      ∧ tunnelOps (ProxyRequest env hh w).2.trace = tunnelOps w.trace ++ ops
      ∧ ((r.2 ≠ none ∧ ops = [Event.readRequest c false])
        ∨ ∃ req b1, (env.readRequest w.ext c).1 = .ok req
          ∧ ((r.2 ≠ none ∧ ops = [Event.readRequest c true, Event.write s b1 false])
            ∨ (r.2 ≠ none ∧ ops = [Event.readRequest c true, Event.write s b1 true,
                  Event.readResponse s req false])
            ∨ ∃ b2,
                (r.2 ≠ none ∧ ops = [Event.readRequest c true, Event.write s b1 true,
                  Event.readResponse s req true, Event.write c b2 false])
              ∨ (r.2 = none ∧ ops = [Event.readRequest c true, Event.write s b1 true,
                  Event.readResponse s req true, Event.write c b2 true]))) := by
  rcases h1 : env.readRequest w.ext c with ⟨r1, s1⟩
  cases r1 with
  | error e =>
    rw [ProxyRequest_read_fails env hh w c e s1 hc h1]
    exact ⟨_, _, rfl, by simp [tunnelOps_append, tunnelOps, Event.isTunnelOp],
      Or.inl ⟨by simp, rfl⟩⟩
  | ok req =>
    rcases h2 : env.dumpRequest s1 req true with ⟨⟨b1, e1⟩, s2⟩
    rcases h3 : env.write s2 s b1 with ⟨r3, s3⟩
    cases r3 with
    | some e =>
      rw [ProxyRequest_forward_fails env hh w c s req b1 e1 e s1 s2 s3 hc hs h1 h2 h3]
      exact ⟨_, _, rfl, by simp [tunnelOps_append, tunnelOps, Event.isTunnelOp],
        Or.inr ⟨req, b1, rfl, Or.inl ⟨by simp, rfl⟩⟩⟩
    | none =>
      rcases h4 : env.readResponse s3 s req with ⟨r4, s4⟩
      cases r4 with
      | error e =>
        rw [ProxyRequest_response_fails env hh w c s req b1 e1 e s1 s2 s3 s4 hc hs h1 h2 h3 h4]
        exact ⟨_, _, rfl, by simp [tunnelOps_append, tunnelOps, Event.isTunnelOp],
          Or.inr ⟨req, b1, rfl, Or.inr (Or.inl ⟨by simp, rfl⟩)⟩⟩
      | ok resp =>
        rcases h5 : env.dumpResponse s4 resp true with ⟨⟨b2, e2⟩, s5⟩
        rcases h6 : env.write s5 c b2 with ⟨r6, s6⟩
        cases r6 with
        | some e =>
          rw [ProxyRequest_reply_fails env hh w c s req resp b1 b2 e1 e2 e s1 s2 s3 s4 s5 s6
            hc hs h1 h2 h3 h4 h5 h6]
          exact ⟨_, _, rfl, by simp [tunnelOps_append, tunnelOps, Event.isTunnelOp],
            Or.inr ⟨req, b1, rfl, Or.inr (Or.inr ⟨b2, Or.inl ⟨by simp, rfl⟩⟩)⟩⟩
        | none =>
          rw [ProxyRequest_succeeds env hh w c s req resp b1 b2 e1 e2 s1 s2 s3 s4 s5 s6
            hc hs h1 h2 h3 h4 h5 h6]
          exact ⟨_, _, rfl, by simp [tunnelOps_append, tunnelOps, Event.isTunnelOp],
            Or.inr ⟨req, b1, rfl, Or.inr (Or.inr ⟨b2, Or.inr ⟨rfl, rfl⟩⟩)⟩⟩

/-- C3: a `ProxyRequest` that returns nil has performed exactly four tunnel
operations, in order: a request read from the client tunnel, a write to the
origin tunnel, a response read from the origin tunnel for that same request,
and a write to the client tunnel.  On every handler whose two tunnels are
established, `ProxyRequest` returns and its tunnel operations are an initial
part of these four that stops at the first one that fails; the returned error
is nil exactly when all four were performed and succeeded. -/
theorem ProxyRequest_tunnel_ops {σ : Type} (env : Env σ) (hh : HttpsHandler) (w : World σ) :
    (returnedError (ProxyRequest env hh w).1 = some none →
      ∃ c s req b1 b2, hh.clientTcpConnection = some c ∧ hh.serverTcpConnection = some s
        ∧ tunnelOps (ProxyRequest env hh w).2.trace
            = tunnelOps w.trace ++ [Event.readRequest c true, Event.write s b1 true,
                Event.readResponse s req true, Event.write c b2 true])
    ∧ ∀ c s, hh.clientTcpConnection = some c → hh.serverTcpConnection = some s →
      ∃ r ops, (ProxyRequest env hh w).1 = .ret r
        ∧ tunnelOps (ProxyRequest env hh w).2.trace = tunnelOps w.trace ++ ops
        ∧ ((r.2 ≠ none ∧ ops = [Event.readRequest c false])
          ∨ ∃ req b1, (env.readRequest w.ext c).1 = .ok req
            ∧ ((r.2 ≠ none ∧ ops = [Event.readRequest c true, Event.write s b1 false])
              ∨ (r.2 ≠ none ∧ ops = [Event.readRequest c true, Event.write s b1 true,
                    Event.readResponse s req false])
              ∨ ∃ b2,
                  (r.2 ≠ none ∧ ops = [Event.readRequest c true, Event.write s b1 true,
                    Event.readResponse s req true, Event.write c b2 false])
                ∨ (r.2 = none ∧ ops = [Event.readRequest c true, Event.write s b1 true,
                    Event.readResponse s req true, Event.write c b2 true]))) := by
  refine ⟨?_, fun c s hc hs => ProxyRequest_ops_established env hh w c s hc hs⟩
  intro hok
  obtain ⟨c, s, hc, hs⟩ := ProxyRequest_nil_established env hh w hok
  obtain ⟨r, ops, hr, hops, hcase⟩ := ProxyRequest_ops_established env hh w c s hc hs
  have hnil : r.2 = none := by
    rw [hr] at hok
    simpa [returnedError] using hok
  rcases hcase with ⟨hne, _⟩ | ⟨req, b1, _, ⟨hne, _⟩ | ⟨hne, _⟩ | ⟨b2, ⟨hne, _⟩ | ⟨_, hops4⟩⟩⟩
  · exact absurd hnil hne
  · exact absurd hnil hne
  · exact absurd hnil hne
  · exact absurd hnil hne
  · exact ⟨c, s, req, b1, b2, hc, hs, by rw [hops, hops4]⟩

theorem NewHttpsHandler_sim :
    (NewHttpsHandler simEnv simWriter simConnect simWorld).1 = .ret (some simHandler, none) := by
  decide

/-- Witness for C3 in the scripted world, where all four operations happen. -/
theorem ProxyRequest_tunnel_ops_witness :
    simHandler.clientTcpConnection = some (Conn.tlsServer 7 (some simConfig))
    ∧ simHandler.serverTcpConnection = some (Conn.tlsClient 1)
    ∧ tunnelOps (ProxyRequest simEnv simHandler simWorld).2.trace
        = [Event.readRequest (Conn.tlsServer 7 (some simConfig)) true,
           Event.write (Conn.tlsClient 1) simRequestDump true,
           Event.readResponse (Conn.tlsClient 1) simRequest true,
           Event.write (Conn.tlsServer 7 (some simConfig)) simResponseBytes true]
    ∧ ∃ r ops, (ProxyRequest simEnv simHandler simWorld).1 = .ret r
      ∧ tunnelOps (ProxyRequest simEnv simHandler simWorld).2.trace
          = tunnelOps simWorld.trace ++ ops
      ∧ ((r.2 ≠ none ∧ ops = [Event.readRequest (Conn.tlsServer 7 (some simConfig)) false])
        ∨ ∃ req b1,
          (simEnv.readRequest simWorld.ext (Conn.tlsServer 7 (some simConfig))).1 = .ok req
          ∧ ((r.2 ≠ none ∧ ops = [Event.readRequest (Conn.tlsServer 7 (some simConfig)) true,
                  Event.write (Conn.tlsClient 1) b1 false])
            ∨ (r.2 ≠ none ∧ ops = [Event.readRequest (Conn.tlsServer 7 (some simConfig)) true,
                  Event.write (Conn.tlsClient 1) b1 true,
                  Event.readResponse (Conn.tlsClient 1) req false])
            ∨ ∃ b2,
                (r.2 ≠ none ∧ ops = [Event.readRequest (Conn.tlsServer 7 (some simConfig)) true,
                  Event.write (Conn.tlsClient 1) b1 true,
                  Event.readResponse (Conn.tlsClient 1) req true,
                  Event.write (Conn.tlsServer 7 (some simConfig)) b2 false])
              ∨ (r.2 = none ∧ ops = [Event.readRequest (Conn.tlsServer 7 (some simConfig)) true,
                  Event.write (Conn.tlsClient 1) b1 true,
                  Event.readResponse (Conn.tlsClient 1) req true,
                  Event.write (Conn.tlsServer 7 (some simConfig)) b2 true]))) :=
  ⟨rfl, rfl, by decide,
    (ProxyRequest_tunnel_ops simEnv simHandler simWorld).2
      (Conn.tlsServer 7 (some simConfig)) (Conn.tlsClient 1) rfl rfl⟩

/-- C2, as amended: a `ProxyRequest` that returns nil has written to the origin
tunnel the bytes `httputil.DumpRequest` returned for the request read from the
client tunnel, and to the client tunnel the bytes `httputil.DumpResponse`
returned for the response read from the origin tunnel; the calls are, in
order, read, dump, write, read, dump, write. -/
theorem ProxyRequest_relays_dumps {σ : Type} (env : Env σ) (hh : HttpsHandler) (w : World σ)
    (hok : returnedError (ProxyRequest env hh w).1 = some none) :
    ∃ c s req resp s1 s3 s4 k1 k2,
      hh.clientTcpConnection = some c ∧ hh.serverTcpConnection = some s
      ∧ env.readRequest w.ext c = (.ok req, s1)
      ∧ env.write (env.dumpRequest s1 req true).2 s (env.dumpRequest s1 req true).1.1
          = (none, s3)
      ∧ env.readResponse s3 s req = (.ok resp, s4)
      ∧ (ProxyRequest env hh w).2.trace
          = w.trace ++ [Event.readRequest c true, Event.dumpRequest req true k1,
              Event.write s (env.dumpRequest s1 req true).1.1 true,
              Event.readResponse s req true, Event.dumpResponse resp true k2,
              Event.write c (env.dumpResponse s4 resp true).1.1 true] := by
  obtain ⟨c, s, hc, hs⟩ := ProxyRequest_nil_established env hh w hok
  rcases h1 : env.readRequest w.ext c with ⟨r1, s1⟩
  cases r1 with
  | error e =>
    rw [ProxyRequest_read_fails env hh w c e s1 hc h1] at hok
    simp [returnedError] at hok
  | ok req =>
    rcases h2 : env.dumpRequest s1 req true with ⟨⟨b1, e1⟩, s2⟩
    rcases h3 : env.write s2 s b1 with ⟨r3, s3⟩
    cases r3 with
    | some e =>
      rw [ProxyRequest_forward_fails env hh w c s req b1 e1 e s1 s2 s3 hc hs h1 h2 h3] at hok
      simp [returnedError] at hok
    | none =>
      rcases h4 : env.readResponse s3 s req with ⟨r4, s4⟩
      cases r4 with
      | error e =>
        rw [ProxyRequest_response_fails env hh w c s req b1 e1 e s1 s2 s3 s4
          hc hs h1 h2 h3 h4] at hok
        simp [returnedError] at hok
      | ok resp =>
        rcases h5 : env.dumpResponse s4 resp true with ⟨⟨b2, e2⟩, s5⟩
        rcases h6 : env.write s5 c b2 with ⟨r6, s6⟩
        cases r6 with
        | some e =>
          rw [ProxyRequest_reply_fails env hh w c s req resp b1 b2 e1 e2 e s1 s2 s3 s4 s5 s6
            hc hs h1 h2 h3 h4 h5 h6] at hok
          simp [returnedError] at hok
        | none =>
          rw [ProxyRequest_succeeds env hh w c s req resp b1 b2 e1 e2 s1 s2 s3 s4 s5 s6
            hc hs h1 h2 h3 h4 h5 h6]
          refine ⟨c, s, req, resp, s1, s3, s4, e1.isNone, e2.isNone, hc, hs, h1, ?_, h4, ?_⟩
          · rw [h2]; exact h3
          · rw [h2, h5]

/-- Witness for C2 as amended, in the scripted world. -/
theorem ProxyRequest_relays_dumps_witness :
    returnedError (ProxyRequest simEnv simHandler simWorld).1 = some none
    ∧ ∃ c s req resp s1 s3 s4 k1 k2,
      simHandler.clientTcpConnection = some c ∧ simHandler.serverTcpConnection = some s
      ∧ simEnv.readRequest simWorld.ext c = (.ok req, s1)
      ∧ simEnv.write (simEnv.dumpRequest s1 req true).2 s
          (simEnv.dumpRequest s1 req true).1.1 = (none, s3)
      ∧ simEnv.readResponse s3 s req = (.ok resp, s4)
      ∧ (ProxyRequest simEnv simHandler simWorld).2.trace
          = simWorld.trace ++ [Event.readRequest c true, Event.dumpRequest req true k1,
              Event.write s (simEnv.dumpRequest s1 req true).1.1 true,
              Event.readResponse s req true, Event.dumpResponse resp true k2,
              Event.write c (simEnv.dumpResponse s4 resp true).1.1 true] :=
  ⟨by decide, ProxyRequest_relays_dumps simEnv simHandler simWorld (by decide)⟩

/-- C2 (counterexample): the client sends a request whose `User-Agent` line
precedes its `Host` line; `ProxyRequest` returns nil, and the bytes it wrote
to the origin tunnel have the `Host` line first: they differ from the bytes
received. -/
theorem ProxyRequest_not_byte_identical :
    simWorld.ext.clientIn = "GET / HTTP/1.1\r\nUser-Agent: x\r\nHost: example.com\r\n\r\n"
    ∧ returnedError (ProxyRequest simEnv simHandler simWorld).1 = some none
    ∧ (ProxyRequest simEnv simHandler simWorld).2.trace
        = [Event.readRequest (Conn.tlsServer 7 (some simConfig)) true,
           Event.dumpRequest simRequest true true,
           Event.write (Conn.tlsClient 1)
             "GET / HTTP/1.1\r\nHost: example.com\r\nUser-Agent: x\r\n\r\n" true,
           Event.readResponse (Conn.tlsClient 1) simRequest true,
           Event.dumpResponse simResponse true true,
           Event.write (Conn.tlsServer 7 (some simConfig))
             "HTTP/1.1 200 OK\r\nContent-Length: 2\r\n\r\nOK" true]
    ∧ "GET / HTTP/1.1\r\nHost: example.com\r\nUser-Agent: x\r\n\r\n" ≠ simWorld.ext.clientIn := by
  refine ⟨rfl, ?_, ?_, ?_⟩ <;> decide

/-- C9 (the code at the failing inputs): when `httputil.DumpResponse` fails,
`ProxyRequest` writes the empty dump to the client tunnel and returns nil; when
`httputil.DumpRequest` fails, it writes the empty dump to the origin tunnel,
goes on, and returns nil as well. -/
theorem ProxyRequest_dump_failure_returns_nil :
    returnedError (ProxyRequest simEnv simHandler simWorldOriginTruncated).1 = some none
    ∧ (ProxyRequest simEnv simHandler simWorldOriginTruncated).2.trace
        = [Event.readRequest (Conn.tlsServer 7 (some simConfig)) true,
           Event.dumpRequest simRequest true true,
           Event.write (Conn.tlsClient 1) simRequestDump true,
           Event.readResponse (Conn.tlsClient 1) simRequest true,
           Event.dumpResponse simResponse true false,
           Event.write (Conn.tlsServer 7 (some simConfig)) "" true]
    ∧ returnedError (ProxyRequest simEnv simHandler simWorldClientTruncated).1 = some none
    ∧ (ProxyRequest simEnv simHandler simWorldClientTruncated).2.trace
        = [Event.readRequest (Conn.tlsServer 7 (some simConfig)) true,
           Event.dumpRequest simRequest true false,
           Event.write (Conn.tlsClient 1) "" true,
           Event.readResponse (Conn.tlsClient 1) simRequest true,
           Event.dumpResponse simResponse true true,
           Event.write (Conn.tlsServer 7 (some simConfig)) simResponseBytes true] := by
  refine ⟨?_, ?_, ?_, ?_⟩ <;> decide

/-! ## Cleanup -/

theorem setupHttpsClientConnection_establishes {σ : Type} (env : Env σ)
    (hh hh1 : HttpsHandler) (w : World σ)
    (h : (setupHttpsClientConnection env hh w).1 = .ret (hh1, none)) :
    ∃ c, hh1.clientTcpConnection = some c := by
  revert h
  cases hj : hh.respWriter.hijacker with
  | false => simp [setupHttpsClientConnection, hj]
  | true =>
    rcases h1 : env.hijack w.ext hh.respWriter with ⟨r1, s1⟩
    cases r1 with
    | error e => simp [setupHttpsClientConnection, hj, h1]
    | ok rawId =>
      rcases h2 : env.write s1 (Conn.raw rawId) connectionEstablished with ⟨r2, s2⟩
      cases r2 with
      | some e => simp [setupHttpsClientConnection, hj, h1, h2, World.log]
      | none =>
        rcases h3 : env.handshake s2 (Conn.tlsServer rawId hh.config) with ⟨r3, s3⟩
        cases r3 with
        | some e => simp [setupHttpsClientConnection, hj, h1, h2, h3, World.log]
        | none =>
          simp only [setupHttpsClientConnection, hj, h1, h2, h3, World.log, Bool.true_eq_false,
            if_false, Res.ret.injEq, Prod.mk.injEq, and_true]
          rintro rfl
          exact ⟨_, rfl⟩

theorem setupHttpsServerConnection_establishes {σ : Type} (env : Env σ)
    (hh hh1 : HttpsHandler) (w : World σ)
    (h : (setupHttpsServerConnection env hh w).1 = .ret (hh1, none)) :
    hh1.clientTcpConnection = hh.clientTcpConnection
    ∧ ∃ s, hh1.serverTcpConnection = some s := by
  revert h
  unfold setupHttpsServerConnection
  split
  · simp
  · simp only [Res.ret.injEq, Prod.mk.injEq, and_true]
    rintro rfl
    exact ⟨rfl, _, rfl⟩

/-- Every handler `NewHttpsHandler` returns has both tunnels established. -/
theorem NewHttpsHandler_established {σ : Type} (env : Env σ)
    (respWriter : http.ResponseWriter) (connectRequest : http.Request) (w : World σ)
    (hh : HttpsHandler) (e : Option Err)
    (h : (NewHttpsHandler env respWriter connectRequest w).1 = .ret (some hh, e)) :
    ∃ c s, hh.clientTcpConnection = some c ∧ hh.serverTcpConnection = some s := by
  revert h
  unfold NewHttpsHandler
  split
  · simp
  · simp only
    split
    · simp
    · simp
    · split
      · simp
      · simp
      · split
        · simp
        · simp
        · rename_i _ hh2 w1 h2 _ hh3 w2 h3 _ hh4 w3 h4
          simp only [Res.ret.injEq, Prod.mk.injEq, Option.some.injEq]
          rintro ⟨rfl, _⟩
          obtain ⟨c, hc⟩ := setupHttpsClientConnection_establishes env hh2 hh3 w1 (by rw [h3])
          obtain ⟨hk, s, hs⟩ := setupHttpsServerConnection_establishes env hh3 hh4 w2 (by rw [h4])
          exact ⟨c, s, by rw [hk, hc], hs⟩

/-- C8, as amended: on a handler whose client tunnel and origin tunnel are both
established, `Defer` closes the client tunnel, then the origin tunnel, and
returns normally; every handler returned by `NewHttpsHandler` is such a
handler. -/
theorem Defer_closes_established {σ : Type} (env : Env σ) (w : World σ) :
    (∀ (hh : HttpsHandler) (c s : Conn),
        hh.clientTcpConnection = some c → hh.serverTcpConnection = some s →
        Defer env hh w
          = (.ret (), ⟨env.close (env.close w.ext c) s,
                        w.trace ++ [Event.close c, Event.close s]⟩))
    ∧ (∀ (respWriter : http.ResponseWriter) (connectRequest : http.Request)
        (hh : HttpsHandler) (e : Option Err),
        (NewHttpsHandler env respWriter connectRequest w).1 = .ret (some hh, e) →
        ∃ c s, hh.clientTcpConnection = some c ∧ hh.serverTcpConnection = some s) := by
  constructor
  · intro hh c s hc hs
    simp [Defer, hc, hs, World.log]
  · intro respWriter connectRequest hh e h
    exact NewHttpsHandler_established env respWriter connectRequest w hh e h

/-- Witness for C8 as amended: the handler built in the scripted world has
both tunnels, and `Defer` closes them in order. -/
theorem Defer_closes_established_witness :
    (NewHttpsHandler simEnv simWriter simConnect simWorld).1 = .ret (some simHandler, none)
    ∧ (∃ c s, simHandler.clientTcpConnection = some c ∧ simHandler.serverTcpConnection = some s)
    ∧ Defer simEnv simHandler simWorld
        = (.ret (), ⟨simWorld.ext, [Event.close (Conn.tlsServer 7 (some simConfig)),
                                    Event.close (Conn.tlsClient 1)]⟩) :=
  ⟨by decide,
    (Defer_closes_established simEnv simWorld).2 simWriter simConnect simHandler none
      (by decide),
    (Defer_closes_established simEnv simWorld).1 simHandler
      (Conn.tlsServer 7 (some simConfig)) (Conn.tlsClient 1) rfl rfl⟩

/-- C8 (counterexample): on a handler whose tunnels were never established
`Defer` panics at the first `Close`; on one whose client tunnel alone is
established it closes that tunnel and panics at the second `Close`. -/
theorem Defer_panics_on_nil_tunnel :
    simParsed.clientTcpConnection = none
    ∧ Defer simEnv simParsed simWorld = (.panic, simWorld)
    ∧ (Defer simEnv { simHandler with serverTcpConnection := none } simWorld).1 = .panic
    ∧ (Defer simEnv { simHandler with serverTcpConnection := none } simWorld).2.trace
        = [Event.close (Conn.tlsServer 7 (some simConfig))] := by
  refine ⟨rfl, rfl, ?_, ?_⟩ <;> decide

end ProxyServer
